import Mathlib

/-!
Shallow embedding of the `durable-apis` repository (TypeScript), covering:
  * the retry policy (`shouldRetry`, backoff) and the stub dispatch loop
    (`stubFetch`) of `src/unnamed/part_000`;
  * the wire codec (`createRequest`, `transformResponse`);
  * the proxy handle (`getDurableGet`'s `get` trap and method cache);
  * identifier resolution (`getDurableGet`'s id branch);
  * the actor-side router of `createDurable`;
  * the tagged websocket broadcast layer of `src/src/durable-ws.ts`
    (`sendTo`, `close`, `upgrade`, `durableWS`).

JavaScript idioms are embedded explicitly: thrown exceptions become
`Except`, `undefined`/`null` become `Option`, and string falsiness
(`!id` is true for the empty string) is modelled by dedicated helpers.
Host primitives (the Durable Object runtime, `JSON.parse`,
`JSON.stringify`, the network transport) are parameters of the
definitions that call them.
-/

namespace DurableAPIs

/-- Substring test on character lists: `p` occurs contiguously in `s`.
Used to embed the source's `RegExp` alternation test, whose patterns are
plain literals with no metacharacters, so matching is substring search. -/
def listContainsPat (s p : List Char) : Bool :=
  (List.range (s.length + 1)).any (fun i => (s.drop i).take p.length == p)

/-- String-level substring occurrence test. -/
def strContainsPat (s p : String) : Bool :=
  listContainsPat s.toList p.toList

/-- `maxRetries` constant from the source (`const maxRetries = 10`). -/
def maxRetries : Nat := 10

/-- The four transient-infrastructure message patterns joined into the
source's `retryOn` regular expression. -/
def retryPatterns : List String :=
  ["Network connection lost",
   "Cannot resolve Durable Object due to transient issue on remote node",
   "Durable Object reset because its code was updated",
   "The Durable Object\x27s code has been updated"]

/-- `retryOn.test(s)`: the alternation of literal patterns matches `s`
iff some pattern occurs in `s` as a substring. -/
def retryOnTest (s : String) : Bool :=
  retryPatterns.any (fun p => strContainsPat s p)

/-- `shouldRetry(err, retries)` from the source:
`if (retries > maxRetries) return false; return retryOn.test(err + '')`.
The error is represented by its string form `err + ''`. -/
def shouldRetry (errStr : String) (retries : Nat) : Bool :=
  if retries > maxRetries then false else retryOnTest errStr

/-- The backoff delay scheduled by `stubFetch` before a retry:
`Math.pow(2, retries) * 10` milliseconds. -/
def backoffDelay (retries : Nat) : Nat :=
  2 ^ retries * 10

end DurableAPIs

namespace DurableAPIs

instance {ε α : Type} [DecidableEq ε] [DecidableEq α] : DecidableEq (Except ε α) :=
  fun x y =>
  match x, y with
  | Except.ok a, Except.ok b =>
    if h : a = b then Decidable.isTrue (by rw [h])
    else Decidable.isFalse (by intro hh; cases hh; exact h rfl)
  | Except.ok _, Except.error _ => Decidable.isFalse (by intro hh; cases hh)
  | Except.error _, Except.ok _ => Decidable.isFalse (by intro hh; cases hh)
  | Except.error a, Except.error b =>
    if h : a = b then Decidable.isTrue (by rw [h])
    else Decidable.isFalse (by intro hh; cases hh; exact h rfl)

/-- A transport response (`Response`): `textResult` is the outcome of
`await response.text()`, which either yields the body text or throws. -/
structure RemoteResponse where
  textResult : Except Unit String
deriving DecidableEq

/-- Result of `transformResponse`: the parsed JSON value, the raw body
text, or the raw response object itself. -/
inductive TransformResult (α : Type) where
  | parsed : α → TransformResult α
  | text : String → TransformResult α
  | response : RemoteResponse → TransformResult α
deriving DecidableEq

/-- `transformResponse(response)` from the source, with `JSON.parse`
passed in as the host primitive `parse` (throwing modelled by
`Except.error`): try to read the body text; inside, try to JSON-parse
it, swallowing the parse error; if even `text()` threw, fall through to
returning the response object. -/
def transformResponse (parse : String → Except Unit α) (r : RemoteResponse) :
    TransformResult α :=
  match r.textResult with
  | Except.ok text =>
    match parse text with
    | Except.ok v => TransformResult.parsed v
    | Except.error _ => TransformResult.text text
  | Except.error _ => TransformResult.response r

/-- A `Request` as built by `createRequest`: URL, HTTP method, the
`Content-Type` header, and the serialized body. -/
structure JSRequest where
  url : String
  httpMethod : String
  contentType : String
  body : String
deriving DecidableEq

/-- The fixed internal origin (`const URL = 'https://durable/'`). -/
def urlBase : String := "https://durable/"

/-- `createRequest(prop, content)` from the source, with
`JSON.stringify` passed in as the host primitive `stringify`. -/
def createRequest (stringify : List β → String) (prop : String) (content : List β) :
    JSRequest :=
  { url := urlBase ++ prop
    httpMethod := "POST"
    contentType := "application/json"
    body := stringify content }

/-- Observable trace of one logical `stubFetch` call: the requests
issued (one per attempt), the backoff delays scheduled (one per retry),
and the final settlement of the returned promise. -/
structure CallTrace (ε α : Type) where
  requests : List JSRequest
  delays : List Nat
  result : Except ε (TransformResult α)
deriving DecidableEq

/-- `stubFetch(obj, prop, content, retries)` from the source.
`transport n` is the settlement of `obj.fetch(...)` on the attempt with
counter `n`; `toStr` is JavaScript string coercion `err + ''`;
`parse`/`stringify` are the JSON host primitives. On fulfilment the
response goes through `transformResponse`; on rejection, if
`shouldRetry` approves, a `backoffDelay retries` sleep is scheduled and
the call recurses with `retries + 1`, otherwise the promise rejects
with the original error value. -/
def stubFetchGo (parse : String → Except Unit α) (stringify : List β → String)
    (toStr : ε → String) (prop : String) (content : List β)
    (transport : Nat → Except ε RemoteResponse) (retries : Nat) :
    CallTrace ε α :=
  let req := createRequest stringify prop content
  match transport retries with
  | Except.ok resp => ⟨[req], [], Except.ok (transformResponse parse resp)⟩
  | Except.error e =>
    if h : shouldRetry (toStr e) retries = true then
      let t := stubFetchGo parse stringify toStr prop content transport (retries + 1)
      ⟨req :: t.requests, backoffDelay retries :: t.delays, t.result⟩
    else
      ⟨[req], [], Except.error e⟩
termination_by maxRetries + 1 - retries
decreasing_by
  simp only [shouldRetry] at h
  split at h
  · exact absurd h (by simp)
  · omega

/-- `stubFetch` with the attempt counter at its default `retries = 0`. -/
def stubFetch (parse : String → Except Unit α) (stringify : List β → String)
    (toStr : ε → String) (prop : String) (content : List β)
    (transport : Nat → Except ε RemoteResponse) : CallTrace ε α :=
  stubFetchGo parse stringify toStr prop content transport 0

end DurableAPIs

namespace DurableAPIs

/-- Association-list lookup modelling JavaScript property access `o[p]`
(and the `p in o` test, via `Option.isSome`) on an object embedded as a
key-value list. -/
def assocLookup {α : Type} (l : List (String × α)) (p : String) : Option α :=
  (l.find? (fun kv => kv.fst == p)).map Prod.snd

/-- Host identifier values (`DurableObjectId`). The three host
constructors are free, reflecting the runtime's guarantees: ids minted
by distinct `newUniqueId` calls are distinct (modelled by a call
counter), and name/canonical-string derivation is pure and injective. -/
inductive DOid where
  | unique : Nat → DOid
  | fromName : String → DOid
  | fromString : String → DOid
deriving DecidableEq

/-- The `id` argument of the extended `get`: absent, a string, or an
already-typed `DurableObjectId`. -/
inductive IdArg where
  | noId : IdArg
  | str : String → IdArg
  | typed : DOid → IdArg
deriving DecidableEq

/-- JavaScript falsiness of the `id` argument (`!id`): true for an
absent argument and for the empty string. -/
def jsFalsyId : IdArg → Bool
  | IdArg.noId => true
  | IdArg.str s => s.isEmpty
  | IdArg.typed _ => false

/-- The identifier-resolution branch of `getDurableGet` (lines
117-121): `!id` mints a fresh unique id (`ctr` is the namespace's
minting counter, advanced by one); a string of length 64 is parsed by
`idFromString`; any other string is derived by `idFromName`; a typed id
is used as-is. Returns the resolved id and the updated counter. -/
def resolveId (ctr : Nat) (id : IdArg) : DOid × Nat :=
  if jsFalsyId id then (DOid.unique ctr, ctr + 1)
  else
    match id with
    | IdArg.str s =>
      if s.length == 64 then (DOid.fromString s, ctr) else (DOid.fromName s, ctr)
    | IdArg.typed i => (i, ctr)
    | IdArg.noId => (DOid.unique ctr, ctr + 1)

/-- A value produced by the stub Proxy's `get` trap: a native property
of the underlying handle passed through unchanged, the special-cased
`fetch` wrapper closure, or a synthesized remote invoker for a method
name. -/
inductive StubProp (π : Type) where
  | native : π → StubProp π
  | fetchWrapper : StubProp π
  | synthesized : String → StubProp π
deriving DecidableEq

/-- The underlying `DurableObjectStub` transport handle: its native
properties. -/
structure Handle (π : Type) where
  props : List (String × π)

/-- The `methods` cache as initialized in `getDurableGet` (lines
124-126): it starts out holding the special-cased `fetch` wrapper
`(...args) => stub.fetch(...args)`. -/
def initialMethods (π : Type) : List (String × StubProp π) :=
  [("fetch", StubProp.fetchWrapper)]

/-- The Proxy `get` trap (lines 129-133): `prop in methods` returns the
cached entry; else `prop in obj` passes the native property through;
else a remote-invoker closure is synthesized and stored in `methods`.
Returns the property value and the updated cache. -/
def proxyGet {π : Type} (obj : Handle π) (methods : List (String × StubProp π))
    (p : String) : StubProp π × List (String × StubProp π) :=
  match assocLookup methods p with
  | some f => (f, methods)
  | none =>
    match assocLookup obj.props p with
    | some v => (StubProp.native v, methods)
    | none =>
      let f := StubProp.synthesized p
      (f, methods ++ [(p, f)])

end DurableAPIs

namespace DurableAPIs

/-- The argument a routed method is invoked with: the decoded content
list, or (for `prop === 'fetch'`) the raw request object. -/
inductive CallArg (α ρ : Type) where
  | args : List α → CallArg α ρ
  | raw : ρ → CallArg α ρ

/-- A property of the actor's public API object: a callable function or
a non-callable value (`typeof api[prop] !== 'function'`). -/
inductive APIProp (α ρ β : Type) where
  | func : (CallArg α ρ → β) → APIProp α ρ β
  | nonFunc : β → APIProp α ρ β

/-- A thrown `StatusError(status, message)`. -/
structure StatusErr where
  status : Nat
  message : String
deriving DecidableEq

/-- The error response built by `error(status, message)` in the catch
of `createDurable`'s `fetch`. -/
structure ErrResponse where
  status : Nat
  message : String
deriving DecidableEq

/-- The `POST /:prop` route handler inside `createDurable` (lines
62-71): if `api[prop]` is not a function, throw
`StatusError(500, ...)`; otherwise invoke it with the raw request when
`prop === 'fetch'` and with the spread decoded content otherwise. The
returned value's encoding by `createResponse` (or its passthrough when
it is already a `Response`) is outside what these claims need, so the
invocation result is returned directly. -/
def routeInternal {α ρ β : Type} (api : List (String × APIProp α ρ β)) (req : ρ)
    (p : String) (content : List α) : Except StatusErr β :=
  match assocLookup api p with
  | some (APIProp.func f) =>
    Except.ok (f (if p == "fetch" then CallArg.raw req else CallArg.args content))
  | _ => Except.error ⟨500, "Durable Object does not contain method " ++ p ++ "()"⟩

/-- The internal-protocol arm of `createDurable`'s returned `fetch`
(line 76): run the router and convert a thrown error via
`error(err.status || 500, err.message)`; `err.status || 500` falls back
to 500 when the status is the falsy `0`. -/
def internalFetch {α ρ β : Type} (api : List (String × APIProp α ρ β)) (req : ρ)
    (p : String) (content : List α) : Except ErrResponse β :=
  match routeInternal api req p content with
  | Except.ok b => Except.ok b
  | Except.error e =>
    Except.error ⟨if e.status == 0 then 500 else e.status, e.message⟩

end DurableAPIs

namespace DurableAPIs

/-- A live server-side websocket connection held by the actor: its
identity, the tags it was accepted under, and the serialized
attachment. -/
structure Conn where
  id : Nat
  tags : List String
  attachment : Option (List String)
deriving DecidableEq

/-- The per-instance connection registry (`state`'s websocket set) plus
a counter minting fresh connection identities. -/
structure WSState where
  conns : List Conn
  nextId : Nat
deriving DecidableEq

/-- Host primitive `state.getWebSockets(tag?)`: every connection, or
the connections carrying the given tag. -/
def getWebSockets (st : WSState) : Option String → List Conn
  | none => st.conns
  | some t => st.conns.filter (fun c => c.tags.contains t)

/-- The `tags` argument of `sendTo`/`close`: a tag list or the marker
`'all'`. -/
inductive TagsArg where
  | all : TagsArg
  | tags : List String → TagsArg

/-- The connection sequence the broadcast layer iterates over:
`state.getWebSockets()` for `'all'`, and
`tags.flatMap(tag => state.getWebSockets(tag))` otherwise. -/
def resolveTargets (st : WSState) : TagsArg → List Conn
  | TagsArg.all => getWebSockets st none
  | TagsArg.tags ts => ts.flatMap (fun t => getWebSockets st (some t))

/-- `sendTo(tags, message)` from `durable-ws.ts` (lines 14-19): the
sequence of `w.send(message)` calls issued, each recorded as the target
connection's identity paired with the message. -/
def sendTo {μ : Type} (st : WSState) (ta : TagsArg) (msg : μ) : List (Nat × μ) :=
  (resolveTargets st ta).map (fun c => (c.id, msg))

/-- `close(tags)` from `durable-ws.ts` (lines 20-25): the sequence of
`w.close()` calls issued, recorded by connection identity. -/
def closeConns (st : WSState) (ta : TagsArg) : List Nat :=
  (resolveTargets st ta).map (fun c => c.id)

/-- An upgrade request, reduced to what `upgrade` reads:
`request.headers.get('Upgrade')`. -/
structure WSRequest where
  upgradeHeader : Option String
deriving DecidableEq

/-- The `Response` returned by the upgrade handler: status, body text,
and the client end of the websocket pair (identified by the id its
server mate is registered under). -/
structure WSResponse where
  status : Nat
  body : Option String
  webSocket : Option Nat
deriving DecidableEq

/-- JavaScript falsiness of `headers.get(...)`: `null` and the empty
string are falsy. -/
def optStrFalsy : Option String → Bool
  | none => true
  | some s => s.isEmpty

/-- `upgrade(getTags)(request)` from `durable-ws.ts` (lines 26-45):
426 when `!upgradeHeader || upgradeHeader !== 'websocket'`; 400 when
the classifier returns null; otherwise a fresh pair is made, the server
end is accepted under the classifier's tags
(`state.acceptWebSocket(server, tags)`), the tag set is persisted on it
(`server.serializeAttachment(tags)`), and a 101 response carrying the
client end is returned. Returns the response and the updated state. -/
def upgrade (getTags : WSRequest → Option (List String)) (st : WSState)
    (req : WSRequest) : WSResponse × WSState :=
  let upgradeHeader := req.upgradeHeader
  if optStrFalsy upgradeHeader || upgradeHeader != some "websocket" then
    (⟨426, some "Expected Upgrade: websocket", none⟩, st)
  else
    match getTags req with
    | none => (⟨400, some "Cannot Upgrade: Bad Request", none⟩, st)
    | some tags =>
      let server : Conn := ⟨st.nextId, tags, some tags⟩
      (⟨101, none, some st.nextId⟩, ⟨st.conns ++ [server], st.nextId + 1⟩)

/-- Key removal used to state object-spread overriding. -/
def removeKey {υ : Type} (l : List (String × υ)) (k : String) : List (String × υ) :=
  l.filter (fun kv => kv.fst != k)

/-- Object spread `{...base, k1: v1, ..., kn: vn}`: each explicit entry
overrides any earlier binding of its key. -/
def objSpread {υ : Type} (base : List (String × υ)) :
    List (String × υ) → List (String × υ)
  | [] => base
  | (k, v) :: rest => objSpread (removeKey base k ++ [(k, v)]) rest

/-- The object `durableWS` hands back to the host (lines 50-61 of
`durable-ws.ts`): `{...api}` — a spread of the wrapped initializer's
API object with no additional entries (the `webSocketMessage`,
`webSocketClose` and `webSocketError` handlers are commented out in the
source). -/
def durableWSReturn {υ : Type} (api : List (String × υ)) : List (String × υ) :=
  objSpread api []

end DurableAPIs

namespace DurableAPIs

/-- C1: for every error whose string form matches a transient pattern,
`shouldRetry` returns true at every attempt count at most 10 and false
at every attempt count at least 11, and the backoff delay scheduled
before the retry at attempt `n` — `backoffDelay n`, the quantity slept
by `stubFetchGo` before recursing — equals `10 * 2 ^ n` milliseconds. -/
theorem C1_retry_policy (e : String) (hm : retryOnTest e = true) :
    (∀ n, n ≤ 10 → shouldRetry e n = true) ∧
    (∀ n, 11 ≤ n → shouldRetry e n = false) ∧
    (∀ n, backoffDelay n = 10 * 2 ^ n) ∧
    (∀ (ε α β : Type) (parse : String → Except Unit α) (stringify : List β → String)
        (toStr : ε → String) (err : ε) (prop : String) (content : List β)
        (transport : Nat → Except ε RemoteResponse) (n : Nat),
        toStr err = e → n ≤ 10 → transport n = Except.error err →
        (stubFetchGo parse stringify toStr prop content transport n).delays.head? =
          some (10 * 2 ^ n)) := by
  have htrue : ∀ n, n ≤ 10 → shouldRetry e n = true := by
    intro n hn
    simp only [shouldRetry, maxRetries]
    rw [if_neg (by omega)]
    exact hm
  refine ⟨htrue, ?_, ?_, ?_⟩
  · intro n hn
    simp only [shouldRetry, maxRetries]
    rw [if_pos (by omega)]
  · intro n
    simp [backoffDelay, Nat.mul_comm]
  · intro ε α β parse stringify toStr err prop content transport n hts hn ht
    rw [stubFetchGo]
    simp only [ht]
    rw [dif_pos (by rw [hts]; exact htrue n hn)]
    simp [backoffDelay, Nat.mul_comm]

/-- Witness for C1 at the concrete transient message
`"Network connection lost"` and attempt counts 3 and 11. -/
theorem C1_retry_policy_witness :
    shouldRetry "Network connection lost" 3 = true ∧
    shouldRetry "Network connection lost" 11 = false ∧
    backoffDelay 3 = 10 * 2 ^ 3 :=
  ⟨(C1_retry_policy "Network connection lost" (by decide)).1 3 (by decide),
   (C1_retry_policy "Network connection lost" (by decide)).2.1 11 (by decide),
   (C1_retry_policy "Network connection lost" (by decide)).2.2.1 3⟩

end DurableAPIs

namespace DurableAPIs

/-- C4: decoding never throws — `transformResponse` is a total function
into the three-tier result: the parsed value when the body text
JSON-parses, the raw body text when parsing fails, and the raw response
object itself, unchanged, when even text extraction fails. -/
theorem C4_transformResponse_three_tier {α : Type}
    (parse : String → Except Unit α) (r : RemoteResponse) :
    (∀ t v, r.textResult = Except.ok t → parse t = Except.ok v →
      transformResponse parse r = TransformResult.parsed v) ∧
    (∀ t e, r.textResult = Except.ok t → parse t = Except.error e →
      transformResponse parse r = TransformResult.text t) ∧
    (∀ e, r.textResult = Except.error e →
      transformResponse parse r = TransformResult.response r) := by
  refine ⟨?_, ?_, ?_⟩ <;> intros <;> simp only [transformResponse, *]

/-- Witness for C4: a parser that accepts exactly the text `"1"`,
exercised on all three tiers at concrete responses. -/
theorem C4_transformResponse_three_tier_witness :
    transformResponse (fun s => if s == "1" then Except.ok 1 else Except.error ())
        ⟨Except.ok "1"⟩ = TransformResult.parsed 1 ∧
    transformResponse (fun s => if s == "1" then Except.ok 1 else Except.error ())
        ⟨Except.ok "x"⟩ = TransformResult.text "x" ∧
    transformResponse (fun s => if s == "1" then Except.ok 1 else Except.error ())
        ⟨Except.error ()⟩ = TransformResult.response ⟨Except.error ()⟩ :=
  ⟨(C4_transformResponse_three_tier _ _).1 "1" 1 rfl (by simp),
   (C4_transformResponse_three_tier _ _).2.1 "x" () rfl (by simp),
   (C4_transformResponse_three_tier _ _).2.2 () rfl⟩

/-- C5: for every error value whose string form matches no transient
pattern, `shouldRetry` is false at every attempt count; and if the
first transport attempt rejects with that error, the whole `stubFetch`
call issues exactly one request, schedules no backoff delay (it is
never retried), and rejects with the original error value itself —
the error type `ε` is abstract, so no wrapping or replacement is
possible. -/
theorem C5_nonTransient_no_retry {ε α β : Type}
    (parse : String → Except Unit α) (stringify : List β → String)
    (toStr : ε → String) (prop : String) (content : List β)
    (transport : Nat → Except ε RemoteResponse) (e : ε)
    (hm : retryOnTest (toStr e) = false) :
    (∀ n, shouldRetry (toStr e) n = false) ∧
    (transport 0 = Except.error e →
      stubFetch parse stringify toStr prop content transport =
        ⟨[createRequest stringify prop content], [], Except.error e⟩) := by
  have hf : ∀ n, shouldRetry (toStr e) n = false := by
    intro n
    simp only [shouldRetry]
    split
    · rfl
    · exact hm
  refine ⟨hf, ?_⟩
  intro ht
  rw [stubFetch, stubFetchGo]
  simp only [ht]
  rw [dif_neg (by rw [hf 0]; simp)]

/-- Witness for C5 at the concrete non-transient error `"boom"` and a
transport that always rejects with it. -/
theorem C5_nonTransient_no_retry_witness :
    shouldRetry "boom" 4 = false ∧
    stubFetch (fun _ => (Except.error () : Except Unit Nat)) (fun _ => "[]")
        (fun s => s) "m" ([] : List Unit) (fun _ => Except.error "boom") =
      ⟨[createRequest (fun _ => "[]") "m" ([] : List Unit)], [],
        Except.error "boom"⟩ :=
  ⟨(C5_nonTransient_no_retry (fun _ => (Except.error () : Except Unit Nat))
      (fun _ => "[]") (fun s => s) "m" ([] : List Unit)
      (fun _ => Except.error "boom") "boom" (by decide)).1 4,
   (C5_nonTransient_no_retry (fun _ => (Except.error () : Except Unit Nat))
      (fun _ => "[]") (fun s => s) "m" ([] : List Unit)
      (fun _ => Except.error "boom") "boom" (by decide)).2 rfl⟩

end DurableAPIs

namespace DurableAPIs

/-- Occurrences of a connection in the tag-filtered registry: its full
multiplicity when it carries the tag, zero otherwise. -/
theorem count_getWebSockets_tag (st : WSState) (c : Conn) (t : String) :
    List.count c (getWebSockets st (some t)) =
      if c.tags.contains t then List.count c st.conns else 0 := by
  simp only [getWebSockets]
  cases h : c.tags.contains t
  · rw [if_neg (by simp [h])]
    refine List.count_eq_zero.mpr (fun hc => ?_)
    have h2 : c.tags.contains t = true := (List.mem_filter.mp hc).2
    exact absurd (h ▸ h2) Bool.false_ne_true
  · rw [if_pos rfl, List.count_filter (p := fun (w : Conn) => w.tags.contains t) h]

/-- Occurrences of a connection in the broadcast target sequence for a
tag list: one copy per listed tag it carries, times its multiplicity in
the registry. -/
theorem count_resolveTargets (st : WSState) (c : Conn) (ts : List String) :
    List.count c (resolveTargets st (TagsArg.tags ts)) =
      (ts.filter (fun t => c.tags.contains t)).length * List.count c st.conns := by
  induction ts with
  | nil => simp [resolveTargets]
  | cons t rest ih =>
    simp only [resolveTargets] at ih ⊢
    rw [List.flatMap_cons, List.count_append, count_getWebSockets_tag, ih,
      List.filter_cons]
    cases h : c.tags.contains t
    · simp
    · simp only [if_pos trivial, List.length_cons]
      ring

/-- C2 counterexample: one live connection tagged both `x` and `y`; a
`sendTo(['x','y'], "m")` broadcast sends to it twice — two `send` calls
on the same connection — refuting "one send per matched connection". -/
theorem C2_sendTo_double_send_counterexample :
    sendTo ⟨[⟨0, ["x", "y"], none⟩], 1⟩ (TagsArg.tags ["x", "y"]) "m" =
      [(0, "m"), (0, "m")] ∧
    ((sendTo ⟨[⟨0, ["x", "y"], none⟩], 1⟩ (TagsArg.tags ["x", "y"]) "m").filter
        (fun s => s.fst == 0)).length ≠ 1 := by
  constructor
  · rfl
  · decide

/-- C2 (amended): `sendTo(tags, msg)` reaches exactly the union of the
live connections carrying some listed tag and no other connection, but
with one `send` per (listed tag, connection) match — a connection
carrying several of the listed tags is sent the message once per such
tag; `sendTo('all', msg)` sends exactly once to every connection; the
`close` variants invoke `close` on the same resolved connection
sequences. -/
theorem C2_sendTo_close_targets {μ : Type} (st : WSState) (ts : List String)
    (msg : μ) (c : Conn) :
    (c ∈ resolveTargets st (TagsArg.tags ts) ↔
      c ∈ st.conns ∧ ∃ t ∈ ts, t ∈ c.tags) ∧
    (List.count c (resolveTargets st (TagsArg.tags ts)) =
      (ts.filter (fun t => c.tags.contains t)).length * List.count c st.conns) ∧
    (sendTo st (TagsArg.tags ts) msg =
      (resolveTargets st (TagsArg.tags ts)).map (fun w => (w.id, msg))) ∧
    (sendTo st TagsArg.all msg = st.conns.map (fun w => (w.id, msg))) ∧
    (closeConns st (TagsArg.tags ts) =
      (resolveTargets st (TagsArg.tags ts)).map (fun w => w.id)) ∧
    (closeConns st TagsArg.all = st.conns.map (fun w => w.id)) := by
  refine ⟨?_, count_resolveTargets st c ts, rfl, rfl, rfl, rfl⟩
  simp only [resolveTargets, getWebSockets, List.mem_flatMap, List.mem_filter]
  constructor
  · rintro ⟨t, ht, hc, hct⟩
    exact ⟨hc, t, ht, by simpa [List.contains, List.elem_iff] using hct⟩
  · rintro ⟨hc, t, ht, hct⟩
    exact ⟨t, ht, hc, by simpa [List.contains, List.elem_iff] using hct⟩

end DurableAPIs

namespace DurableAPIs

/-- C3 counterexample: `fetch` is natively present on the handle (it is
the stub's raw send primitive), yet reading `stub.fetch` yields the
special-cased wrapper closure from the `methods` cache, not the
handle's own property value. -/
theorem C3_fetch_not_passthrough_counterexample :
    (proxyGet (⟨[("fetch", 7)]⟩ : Handle Nat) (initialMethods Nat) "fetch").fst
      = StubProp.fetchWrapper ∧
    (proxyGet (⟨[("fetch", 7)]⟩ : Handle Nat) (initialMethods Nat) "fetch").fst
      ≠ StubProp.native 7 := by
  exact ⟨rfl, by decide⟩

/-- Helper: the initial `methods` cache holds only the `fetch`
wrapper. -/
theorem assocLookup_initialMethods_ne_fetch {π : Type} (p : String)
    (hp : p ≠ "fetch") : assocLookup (initialMethods π) p = none := by
  simp only [initialMethods, assocLookup, List.find?]
  rw [show (("fetch" : String) == p) = false from beq_eq_false_iff_ne.mpr (Ne.symm hp)]
  rfl

/-- C3 (amended): every property natively present on the handle other
than the reserved name `fetch` is passed through unchanged by the
Proxy's `get` trap (whenever the `methods` cache holds no entry for it,
which holds in the initial cache for every such name); `fetch` itself
is instead answered from the cache with the wrapper closure. -/
theorem C3_native_passthrough_except_fetch {π : Type} (obj : Handle π)
    (methods : List (String × StubProp π)) (p : String) (v : π)
    (hfetch : p ≠ "fetch") (hp : assocLookup methods p = none)
    (hv : assocLookup obj.props p = some v) :
    assocLookup (initialMethods π) p = none ∧
    proxyGet obj methods p = (StubProp.native v, methods) := by
  refine ⟨assocLookup_initialMethods_ne_fetch p hfetch, ?_⟩
  simp only [proxyGet, hp, hv]

/-- Witness for C3 (amended) at the native property `"id"` of a
concrete handle, read through the initial cache. -/
theorem C3_native_passthrough_except_fetch_witness :
    proxyGet (⟨[("id", 5)]⟩ : Handle Nat) (initialMethods Nat) "id" =
      (StubProp.native 5, initialMethods Nat) :=
  (C3_native_passthrough_except_fetch (⟨[("id", 5)]⟩ : Handle Nat)
    (initialMethods Nat) "id" 5 (by decide) (by decide) (by decide)).2

/-- C6: an internal-protocol `POST /<m>` whose method name is absent
from the actor's public API object, or present but not callable, yields
an error response of status 500 whose message names the missing
method. -/
theorem C6_missing_method_500 {α ρ β : Type} (api : List (String × APIProp α ρ β))
    (req : ρ) (m : String) (content : List α)
    (hm : assocLookup api m = none ∨ ∃ v, assocLookup api m = some (APIProp.nonFunc v)) :
    internalFetch api req m content =
      Except.error ⟨500, "Durable Object does not contain method " ++ m ++ "()"⟩ := by
  rcases hm with h | ⟨v, h⟩ <;> simp [internalFetch, routeInternal, h]

/-- Witness for C6: a concrete API holding only `inc`, called at the
absent method `foo` and at the non-callable property `version`. -/
theorem C6_missing_method_500_witness :
    internalFetch
        ([("inc", APIProp.func (fun _ => 1)), ("version", APIProp.nonFunc 2)] :
          List (String × APIProp Nat Nat Nat)) 0 "foo" [] =
      Except.error ⟨500, "Durable Object does not contain method " ++ "foo" ++ "()"⟩ ∧
    internalFetch
        ([("inc", APIProp.func (fun _ => 1)), ("version", APIProp.nonFunc 2)] :
          List (String × APIProp Nat Nat Nat)) 0 "version" [] =
      Except.error ⟨500, "Durable Object does not contain method " ++ "version" ++ "()"⟩ :=
  ⟨C6_missing_method_500 _ 0 "foo" [] (Or.inl rfl),
   C6_missing_method_500 _ 0 "version" [] (Or.inr ⟨2, rfl⟩)⟩

end DurableAPIs

namespace DurableAPIs

/-- Helper: a string of nonzero length is not `isEmpty`. -/
theorem isEmpty_false_of_length_ne_zero {s : String} (h : s.length ≠ 0) :
    s.isEmpty = false := by
  cases he : s.isEmpty
  · rfl
  · exact absurd (by rw [(String.isEmpty_iff s).mp he]; rfl) h

/-- C7 counterexample: the empty string has length other than 64, yet
it is not treated as a name — being falsy (`!id`), it mints a fresh
unique id exactly as the no-identifier case does. -/
theorem C7_empty_string_counterexample :
    ("".length ≠ 64) ∧
    (resolveId 0 (IdArg.str "")).fst = DOid.unique 0 ∧
    (resolveId 0 (IdArg.str "")).fst ≠ DOid.fromName "" := by
  refine ⟨by decide, rfl, by decide⟩

/-- C7 (amended): passing no identifier mints a fresh unique id on each
call (two successive calls give distinct ids); passing the same
nonempty name string of length other than 64 always yields the same
derived id; a string of length exactly 64 is parsed as a canonical id,
not re-derived; an already-typed id is used as-is; the empty string,
being falsy, behaves like the no-identifier case and mints a fresh
unique id. -/
theorem C7_id_resolution (s : String) :
    (∀ ctr, (resolveId ctr IdArg.noId).fst = DOid.unique ctr ∧
      (resolveId ctr IdArg.noId).fst ≠
        (resolveId (resolveId ctr IdArg.noId).snd IdArg.noId).fst) ∧
    (s ≠ "" → s.length ≠ 64 →
      ∀ c1 c2, (resolveId c1 (IdArg.str s)).fst = DOid.fromName s ∧
        (resolveId c2 (IdArg.str s)).fst = (resolveId c1 (IdArg.str s)).fst) ∧
    (s.length = 64 → ∀ c, resolveId c (IdArg.str s) = (DOid.fromString s, c)) ∧
    (∀ c, resolveId c (IdArg.str "") = (DOid.unique c, c + 1)) ∧
    (∀ c i, resolveId c (IdArg.typed i) = (i, c)) := by
  have hne : ∀ t : String, t ≠ "" → t.isEmpty = false := by
    intro t ht
    cases hh : t.isEmpty
    · rfl
    · exact absurd ((String.isEmpty_iff t).mp hh) ht
  refine ⟨?_, ?_, ?_, ?_, ?_⟩
  · intro ctr
    refine ⟨rfl, ?_⟩
    simp [resolveId, jsFalsyId]
  · intro hs h64 c1 c2
    have hf : jsFalsyId (IdArg.str s) = false := hne s hs
    have hb : (s.length == 64) = false := by
      simp [h64]
    constructor <;>
      simp [resolveId, hf, hb]
  · intro h64 c
    have hf : jsFalsyId (IdArg.str s) = false := by
      simp only [jsFalsyId]
      exact isEmpty_false_of_length_ne_zero (by omega)
    have hb : (s.length == 64) = true := by simp [h64]
    simp [resolveId, hf, hb]
  · intro c
    rfl
  · intro c i
    rfl

end DurableAPIs

namespace DurableAPIs

/-- Witness for C7 (amended): concrete resolutions — two fresh mints,
the name `"alice"`, a 64-character canonical string, and a typed id. -/
theorem C7_id_resolution_witness :
    (resolveId 0 IdArg.noId).fst ≠
      (resolveId (resolveId 0 IdArg.noId).snd IdArg.noId).fst ∧
    (resolveId 3 (IdArg.str "alice")).fst = DOid.fromName "alice" ∧
    resolveId 7
        (IdArg.str "0123456789abcdef0123456789abcdef0123456789abcdef0123456789abcdef") =
      (DOid.fromString
        "0123456789abcdef0123456789abcdef0123456789abcdef0123456789abcdef", 7) ∧
    resolveId 9 (IdArg.typed (DOid.unique 4)) = (DOid.unique 4, 9) :=
  ⟨((C7_id_resolution "alice").1 0).2,
   ((C7_id_resolution "alice").2.1 (by decide) (by decide) 3 3).1,
   (C7_id_resolution
      "0123456789abcdef0123456789abcdef0123456789abcdef0123456789abcdef").2.2.1
     (by decide) 7,
   (C7_id_resolution "alice").2.2.2.2 9 (DOid.unique 4)⟩

/-- C8: the upgrade handler answers 426 to every request lacking an
`Upgrade: websocket` header and leaves the registry untouched; with the
header but a classifier answering null it answers 400 and accepts no
connection; otherwise it accepts a server-side connection registered
under exactly the classifier's tags, persists that tag set as the
connection's attachment, and answers 101 carrying the client-side
end of the pair. -/
theorem C8_upgrade_handler (getTags : WSRequest → Option (List String))
    (st : WSState) (req : WSRequest) :
    (req.upgradeHeader ≠ some "websocket" →
      upgrade getTags st req =
        (⟨426, some "Expected Upgrade: websocket", none⟩, st)) ∧
    (req.upgradeHeader = some "websocket" → getTags req = none →
      upgrade getTags st req =
        (⟨400, some "Cannot Upgrade: Bad Request", none⟩, st)) ∧
    (∀ ts, req.upgradeHeader = some "websocket" → getTags req = some ts →
      upgrade getTags st req =
        (⟨101, none, some st.nextId⟩,
         ⟨st.conns ++ [⟨st.nextId, ts, some ts⟩], st.nextId + 1⟩)) := by
  refine ⟨?_, ?_, ?_⟩
  · intro h
    cases hh : req.upgradeHeader with
    | none => simp [upgrade, hh, optStrFalsy]
    | some s =>
      have hs : s ≠ "websocket" := by
        intro he
        exact h (by rw [hh, he])
      simp [upgrade, hh, hs]
  · intro hh ht
    have hw : "websocket".isEmpty = false := rfl
    simp [upgrade, hh, ht, optStrFalsy, hw]
  · intro ts hh ht
    have hw : "websocket".isEmpty = false := rfl
    simp [upgrade, hh, ht, optStrFalsy, hw]

/-- Witness for C8 at concrete requests exercising all three arms. -/
theorem C8_upgrade_handler_witness :
    upgrade (fun _ => some ["x"]) ⟨[], 0⟩ ⟨none⟩ =
      (⟨426, some "Expected Upgrade: websocket", none⟩, ⟨[], 0⟩) ∧
    upgrade (fun _ => none) ⟨[], 0⟩ ⟨some "websocket"⟩ =
      (⟨400, some "Cannot Upgrade: Bad Request", none⟩, ⟨[], 0⟩) ∧
    upgrade (fun _ => some ["x"]) ⟨[], 0⟩ ⟨some "websocket"⟩ =
      (⟨101, none, some 0⟩, ⟨[⟨0, ["x"], some ["x"]⟩], 1⟩) :=
  ⟨(C8_upgrade_handler (fun _ => some ["x"]) ⟨[], 0⟩ ⟨none⟩).1 (by simp),
   (C8_upgrade_handler (fun _ => none) ⟨[], 0⟩ ⟨some "websocket"⟩).2.1 rfl rfl,
   (C8_upgrade_handler (fun _ => some ["x"]) ⟨[], 0⟩ ⟨some "websocket"⟩).2.2
     ["x"] rfl rfl⟩

end DurableAPIs

namespace DurableAPIs

/-- Helper: looking a key up past a prefix that does not bind it. -/
theorem assocLookup_append_of_none {α : Type} {l1 : List (String × α)}
    (l2 : List (String × α)) {p : String} (h : assocLookup l1 p = none) :
    assocLookup (l1 ++ l2) p = assocLookup l2 p := by
  simp only [assocLookup, List.find?_append]
  simp only [assocLookup] at h
  cases hf : l1.find? (fun kv => kv.fst == p) with
  | none => simp
  | some kv => simp [hf] at h

/-- C9: for a method name `m` not natively on the handle and not yet
cached, the first invocation of `stub.m(a, b, c)` issues exactly one
encoded request — a POST to `/m` with `Content-Type: application/json`
and body the JSON serialization of the argument list — when the first
transport attempt fulfils; and repeated property access of `stub.m`
returns the identical cached function created by the first access. -/
theorem C9_first_call_request_and_memo {π ε α β : Type}
    (obj : Handle π) (methods : List (String × StubProp π)) (m : String)
    (parse : String → Except Unit α) (stringify : List β → String)
    (toStr : ε → String) (content : List β)
    (transport : Nat → Except ε RemoteResponse) (resp : RemoteResponse)
    (hc : assocLookup methods m = none) (hn : assocLookup obj.props m = none)
    (ht : transport 0 = Except.ok resp) :
    ((stubFetch parse stringify toStr m content transport).requests =
      [{ url := urlBase ++ m, httpMethod := "POST",
         contentType := "application/json", body := stringify content }]) ∧
    (proxyGet obj methods m).fst = StubProp.synthesized m ∧
    (proxyGet obj ((proxyGet obj methods m).snd) m).fst =
      (proxyGet obj methods m).fst := by
  refine ⟨?_, ?_, ?_⟩
  · rw [stubFetch, stubFetchGo]
    simp only [ht]
    rfl
  · simp only [proxyGet, hc, hn]
  · simp only [proxyGet, hc, hn]
    rw [assocLookup_append_of_none [(m, StubProp.synthesized m)] hc]
    simp [assocLookup]

/-- Witness for C9: the method `inc` called with arguments `[1, 2, 3]`
on a handle with no native `inc`, through the initial cache. -/
theorem C9_first_call_request_and_memo_witness :
    ((stubFetch (fun _ => (Except.error () : Except Unit Nat))
        (fun _ => "[1,2,3]") (fun s => s) "inc" [1, 2, 3]
        (fun _ => Except.ok ⟨Except.ok "3"⟩)).requests =
      [{ url := urlBase ++ "inc", httpMethod := "POST",
         contentType := "application/json", body := "[1,2,3]" }]) ∧
    (proxyGet (⟨[]⟩ : Handle Nat) (initialMethods Nat) "inc").fst =
      StubProp.synthesized "inc" ∧
    (proxyGet (⟨[]⟩ : Handle Nat)
        ((proxyGet (⟨[]⟩ : Handle Nat) (initialMethods Nat) "inc").snd)
        "inc").fst =
      (proxyGet (⟨[]⟩ : Handle Nat) (initialMethods Nat) "inc").fst :=
  C9_first_call_request_and_memo (⟨[]⟩ : Handle Nat) (initialMethods Nat) "inc"
    (fun _ => (Except.error () : Except Unit Nat)) (fun _ => "[1,2,3]")
    (fun s => s) [1, 2, 3] (fun _ => Except.ok ⟨Except.ok "3"⟩) ⟨Except.ok "3"⟩
    (by decide) rfl rfl

/-- C10: the object `durableWS` hands back to the host is exactly the
wrapped initializer's API object — every property keeps its original
value and no property is added; in particular the broadcast layer
installs no `webSocketMessage`, `webSocketClose` or `webSocketError`
handler, so the host observes the wrapped actor's own handlers or their
absence. -/
theorem C10_durableWS_adds_nothing {υ : Type} (api : List (String × υ)) :
    durableWSReturn api = api ∧
    (∀ p, assocLookup (durableWSReturn api) p = assocLookup api p) ∧
    assocLookup (durableWSReturn api) "webSocketMessage" =
      assocLookup api "webSocketMessage" ∧
    assocLookup (durableWSReturn api) "webSocketClose" =
      assocLookup api "webSocketClose" ∧
    assocLookup (durableWSReturn api) "webSocketError" =
      assocLookup api "webSocketError" :=
  ⟨rfl, fun _ => rfl, rfl, rfl, rfl⟩

end DurableAPIs
